import Mathlib

/-!
Verification of the Gabbi / Tona Law intake agent (`src/retell_bridge.py`).

The Python module is embedded shallowly: every pure function becomes a Lean
function over `String` / `List Char`, Python dicts become association lists
with unique keys, the per-call dialogue state of `ConversationFlow` becomes an
explicit `FlowCall` record and the module-level agent state becomes an
`AgentState` record threaded through `process_retell_request`.  Python's
process-salted `hash` builtin is a parameter `pyhash : String → Nat` of every
definition that reaches `GabbiPersonality.add_empathy_markers`.
-/

namespace RetellBridge

/-- Python string lowering, restricted to the ASCII range the module's
keyword lists live in (`str.lower`). -/
def pyLower (s : String) : String := ⟨s.data.map Char.toLower⟩

/-- Python substring membership `pat in s` over the character list of `s`:
true iff `pat` occurs contiguously (the empty pattern always matches). -/
def subListChars (pat : List Char) : List Char → Bool
  | [] => pat.isEmpty
  | c :: cs => pat.isPrefixOf (c :: cs) || subListChars pat cs

/-- Python `pat in s` on strings. -/
def strContains (s pat : String) : Bool := subListChars pat.data s.data

/-- Python `any(word in s for word in keywords)`. -/
def anyKeyword (s : String) (keywords : List String) : Bool :=
  keywords.any (fun k => strContains s k)

/-- One pass of Python `str.replace(pat, repl)` (all non-overlapping
occurrences, left to right), written with a fuel argument so the recursion is
structural; `fuel ≥ l.length` makes the fuel-0 branch unreachable. -/
def pyReplaceAux (pat repl : List Char) : Nat → List Char → List Char
  | 0, l => l
  | _ + 1, [] => []
  | fuel + 1, c :: cs =>
    if pat.isEmpty then c :: cs
    else if pat.isPrefixOf (c :: cs) then
      repl ++ pyReplaceAux pat repl fuel ((c :: cs).drop pat.length)
    else
      c :: pyReplaceAux pat repl fuel cs

/-- Python `s.replace(pat, repl)` for a non-empty pattern (the module only
replaces the non-empty patterns `"I'm"` and `". "`). -/
def pyReplace (s pat repl : String) : String :=
  ⟨pyReplaceAux pat.data repl.data s.data.length s.data⟩

/-- Python list slice `l[-n:]`. -/
def lastN (n : Nat) (l : List α) : List α := l.drop (l.length - n)

/-- Python dict assignment `d[k] = v` on a dict modelled as an association
list: overwrite the binding in place when the key is present, append it
otherwise. -/
def dictSet (d : List (String × β)) (k : String) (v : β) : List (String × β) :=
  if (List.lookup k d).isSome then
    d.map (fun p => if p.1 = k then (k, v) else p)
  else d ++ [(k, v)]

/-- A transcript entry as the module reads it: a dict whose `"content"` key
may be missing (`msg.get('content', '')`); the role key is never read. -/
structure Msg where
  content : Option String
deriving DecidableEq

/-- `TonaLawKnowledgeBase.FAQS`, in the Python dict's insertion order. -/
def FAQS : List (String × String) :=
  [("do i have a case",
    "Whether your situation qualifies as a personal injury case depends on the details of your incident. If you've been injured due to someone else's negligence, you may have a valid claim. I can gather more information now to evaluate your case."),
   ("how much is my case worth",
    "The value of your case depends on factors like medical expenses, lost wages, pain and suffering, and the extent of your injuries. I can discuss your situation in more detail to provide an initial estimate."),
   ("how much does it cost",
    "We work on a contingency fee basis, meaning you pay nothing upfront. We only get paid if you win your case, with fees typically a percentage of your settlement or award. I can explain this further."),
   ("how long will my case take",
    "The timeline for resolving a personal injury case varies based on its complexity, the extent of your injuries, and whether it settles or goes to trial. Simple cases may take months, while others could take a year or more. I'll keep you updated throughout the process."),
   ("what should i do next",
    "Seek medical care for your injuries, document everything like photos, medical records, and receipts, and avoid speaking with insurance adjusters before I advise you. I can guide you on the next steps right now.")]

/-- `GabbiPersonality.add_empathy_markers(text, context)`.  Python selects the
empathy phrase by `hash(context) % 4`; the builtin `hash` is the parameter
`pyhash`. -/
def add_empathy_markers (pyhash : String → Nat) (text : String) (context : String) : String :=
  let contextLower := pyLower context
  if anyKeyword contextLower ["accident", "injured", "hurt", "pain"] then
    let empathyPhrases := ["I'm so sorry to hear that happened to you",
                           "That sounds really difficult",
                           "I can only imagine how that must feel",
                           "That must have been scary"]
    let phraseIndex := pyhash context % empathyPhrases.length
    let empathy := empathyPhrases.getD phraseIndex ""
    empathy ++ ". " ++ text
  else if anyKeyword contextLower ["severe", "serious", "hospital", "surgery"] then
    "Oh my gosh, that sounds awful I'm sorry. " ++ text
  else text

/-- `GabbiPersonality.add_conversational_markers(text)`. -/
def add_conversational_markers (text : String) : String :=
  let text := pyReplace text "I'm" "I'm"
  let text := pyReplace text ". " "... "
  if text.length > 80 then
    let encouragingPhrases := ["you made the right call",
                               "I'm here to help you through this",
                               "we're going to take good care of you"]
    if !(encouragingPhrases.any (fun p => strContains (pyLower text) p)) then
      let phraseIndex := text.length % encouragingPhrases.length
      let encouragement := encouragingPhrases.getD phraseIndex ""
      text ++ " And " ++ encouragement ++ "."
    else text
  else text

/-- `ConversationFlow.get_initial_greeting()`. -/
def get_initial_greeting : String :=
  "Hi, this is Gabbi, the AI receptionist at TonaLaw. How can I help you?"

/-- The personal-injury keyword list of `ConversationFlow.identify_case_type`. -/
def piKeywords : List String :=
  ["accident", "injured", "hurt", "car", "truck", "motorcycle", "slip", "fall", "crash"]

/-- The no-fault keyword list of `ConversationFlow.identify_case_type`. -/
def nfKeywords : List String :=
  ["no fault", "no-fault", "insurance", "practice", "healthcare", "provider", "denied", "benefits"]

/-- The outside-practice keyword list of `ConversationFlow.identify_case_type`. -/
def outsideKeywords : List String :=
  ["divorce", "criminal", "family", "real estate", "bankruptcy", "immigration"]

/-- `ConversationFlow.identify_case_type(user_input)`. -/
def identify_case_type (userInput : String) : String :=
  let userLower := pyLower userInput
  if anyKeyword userLower piKeywords then "personal_injury"
  else if anyKeyword userLower nfKeywords then "no_fault"
  else if anyKeyword userLower outsideKeywords then "outside_practice"
  else "unknown"

/-- The per-call slice of `ConversationFlow`: `current_state[call_id]` (the
numeric codes of `self.states`) and `collected_info[call_id]`. -/
structure FlowCall where
  state : Nat
  info : List (String × String)
deriving DecidableEq

/-- The outside-practice reply (returned from two places in
`get_next_response`). -/
def outsidePracticeMsg : String :=
  "I appreciate you calling us, but we actually don't handle these types of cases. I recommend you contact a law firm that specializes in that area. Is there anything else I can help you with?"

/-- The generic "what kind of matter" reply of `get_next_response`. -/
def whatMatterMsg : String :=
  "We appreciate you calling us at Tona Law. What kind of matter can I assist you with?"

/-- The default reply at the end of `get_next_response`. -/
def defaultMsg : String :=
  "I want to make sure I understand you correctly. Could you please repeat that for me?"

/-- The tail of `get_next_response`: the FAQ loop over `FAQS` (first question
contained in the lowered input wins), then the default reply. -/
def faq_fallback (userLower : String) : String :=
  match FAQS.find? (fun qa => strContains userLower qa.1) with
  | some qa => qa.2
  | none => defaultMsg

/-- `ConversationFlow.get_next_response(user_input, call_id)`, as a function
of the call's own slice of the flow state (`none` = call id never seen, which
Python initialises to state 0 with an empty dict before dispatching).  Returns
the reply and the new slice.  State codes follow `self.states`:
0 initial_greeting, 1 identifying_caller, 2 collecting_info,
3 qualifying_personal_injury, 4 qualifying_no_fault,
5 qualified_ready_transfer, 6 not_qualified, 7 outside_practice_area. -/
def get_next_response (userInput : String) (st : Option FlowCall) : String × FlowCall :=
  let st0 := st.getD ⟨0, []⟩
  let state := st0.state
  let info := st0.info
  let userLower := pyLower userInput
  if state = 0 then
    let caseType := identify_case_type userInput
    if caseType = "personal_injury" then
      if anyKeyword userLower ["accident", "injured", "car", "truck"] then
        ("Okay got it so to confirm, you are calling about a personal injury matter, right?",
         ⟨2, dictSet info "case_type" "personal_injury"⟩)
      else (whatMatterMsg, ⟨1, info⟩)
    else if caseType = "no_fault" then
      ("We appreciate you calling us at Tona Law. I understand you're calling about no-fault collection. What is the name of your practice?",
       ⟨2, dictSet info "case_type" "no_fault"⟩)
    else if caseType = "outside_practice" then
      (outsidePracticeMsg, ⟨7, info⟩)
    else (whatMatterMsg, ⟨1, info⟩)
  else if state = 2 then
    if List.lookup "case_type" info = none then
      let caseType := identify_case_type userInput
      let info2 := dictSet info "case_type" caseType
      if caseType = "personal_injury" then
        ("Let me start by getting your first and last name. Do you mind spelling your full name slowly and clearly for me?",
         ⟨2, info2⟩)
      else if caseType = "no_fault" then
        ("What is the name of your practice?", ⟨2, info2⟩)
      else if caseType = "outside_practice" then
        (outsidePracticeMsg, ⟨7, info2⟩)
      else (faq_fallback userLower, ⟨2, info2⟩)
    else if List.lookup "name" info = none then
      ("And to confirm, is the number you are calling us from the best number to reach you at?",
       ⟨2, dictSet info "name" userInput⟩)
    else if List.lookup "phone_confirmed" info = none then
      let info2 := dictSet info "phone_confirmed" userInput
      let caseType := (List.lookup "case_type" info).getD ""
      if caseType = "personal_injury" then
        ("Can you briefly explain the situation?", ⟨3, info2⟩)
      else if caseType = "no_fault" then
        ("Thank you. What type of healthcare provider are you?", ⟨4, info2⟩)
      else (faq_fallback userLower, ⟨2, info2⟩)
    else (faq_fallback userLower, ⟨2, info⟩)
  else if state = 3 then
    if List.lookup "situation" info = none then
      ("Where and when did the accident happen?", ⟨3, dictSet info "situation" userInput⟩)
    else if List.lookup "location_time" info = none then
      ("Can you please describe the injuries from the accident?",
       ⟨3, dictSet info "location_time" userInput⟩)
    else if List.lookup "injuries" info = none then
      let info2 := dictSet info "injuries" userInput
      if anyKeyword userLower ["injured", "hurt", "pain", "hospital", "doctor", "medical"] then
        ("Okay so what I'd like to do now is transfer you over to my colleague who will help you with the next steps. Again, I'm very sorry to hear about your situation but you made the right call. I'm transferring you now.",
         ⟨5, info2⟩)
      else
        ("I understand. Since there were no injuries, this might not qualify for a personal injury case. However, I'd be happy to discuss other options or see if there's anything else I can help you with.",
         ⟨6, info2⟩)
    else (faq_fallback userLower, ⟨3, info⟩)
  else if state = 4 then
    if List.lookup "provider_type" info = none then
      ("Do you currently accept No-Fault Insurance in your practice as a form of payment?",
       ⟨4, dictSet info "provider_type" userInput⟩)
    else if List.lookup "accepts_no_fault" info = none then
      ("What is your estimate of the dollar amount outstanding to date in wrongly denied no fault benefits?",
       ⟨4, dictSet info "accepts_no_fault" userInput⟩)
    else if List.lookup "outstanding_amount" info = none then
      ("Thank you for that information. Let me transfer you to one of our attorneys who specializes in no-fault collection cases. They'll be able to help you with the next steps.",
       ⟨5, dictSet info "outstanding_amount" userInput⟩)
    else (faq_fallback userLower, ⟨4, info⟩)
  else (faq_fallback userLower, ⟨state, info⟩)

/-- `GabbiVoiceEngine.detect_emotions(content)`: the emotion labels are
appended in the fixed order trauma, frustration, confusion, urgency; several
may apply at once. -/
def detect_emotions (content : String) : List String :=
  let contentLower := pyLower content
  (if anyKeyword contentLower ["accident", "injured", "scared", "traumatic", "hospital", "emergency"]
   then ["trauma"] else []) ++
  (if anyKeyword contentLower ["frustrated", "angry", "denied", "refused", "unfair", "ridiculous"]
   then ["frustration"] else []) ++
  (if anyKeyword contentLower ["confused", "understand", "explain", "what", "how", "why"]
   then ["confusion"] else []) ++
  (if anyKeyword contentLower ["urgent", "quickly", "asap", "immediately", "deadline", "statute"]
   then ["urgency"] else [])

/-- The string `' '.join([msg.get('content', '') for msg in context[-2:]])`
built by `enhance_with_voice_presence` and `add_emotional_intelligence`. -/
def recentJoin (context : List Msg) : String :=
  String.intercalate " " ((lastN 2 context).map (fun m => m.content.getD ""))

/-- `GabbiVoiceEngine.add_emotional_intelligence(text, context)`.  The Python
parameter default `context=None` and an empty list are both falsy, so both are
modelled by `[]`. -/
def add_emotional_intelligence (text : String) (context : List Msg) : String :=
  if context.isEmpty then text
  else
    let recentContent := recentJoin context
    let emotions := detect_emotions recentContent
    if emotions.contains "trauma" then
      "I can hear this has been really difficult for you... " ++ text ++ " Take your time, there's no rush."
    else if emotions.contains "frustration" then
      "I understand your frustration... " ++ text ++ " We're here to help make this easier for you."
    else if emotions.contains "confusion" then
      "Let me help clarify this for you. " ++ text ++ " Does that make more sense?"
    else if emotions.contains "urgency" then
      "I understand this is urgent for you. " ++ text ++ " We'll move as quickly as we can."
    else text

/-- `GabbiVoiceEngine.enhance_with_voice_presence(text, context, call_id)`:
conversational markers, then (when the context is truthy) empathy markers over
the joined last two context entries, then emotional intelligence.  `call_id`
is never read by the Python body and is dropped. -/
def enhance_with_voice_presence (pyhash : String → Nat) (text : String)
    (context : List Msg) : String :=
  let enhanced := add_conversational_markers text
  let enhanced :=
    if context.isEmpty then enhanced
    else add_empathy_markers pyhash enhanced (recentJoin context)
  add_emotional_intelligence enhanced context

/-- An entry of `GabbiTonaLawAgent.active_calls`: the dict written on first
contact with a call id (`time.time()` becomes the parameter `now`). -/
structure CallRecord where
  startTime : Nat
  clientType : String
  qualificationStatus : String
deriving DecidableEq

/-- The module-level mutable state of `GabbiTonaLawAgent` together with the
per-call dicts of its `ConversationFlow`. -/
structure AgentState where
  activeCalls : List (String × CallRecord)
  conversationMemory : List (String × List Msg)
  flowCalls : List (String × FlowCall)
deriving DecidableEq

/-- An inbound Retell event as `process_retell_request` reads it:
`request.get("interaction_type")`, `request.get("transcript", [])`,
`request.get("response_id")`. -/
structure RetellRequest where
  interactionType : Option String
  transcript : List Msg
  responseId : Option Nat
deriving DecidableEq

/-- The outbound reply dict of `process_retell_request`. -/
structure RetellResponse where
  responseId : Option Nat
  content : String
  contentComplete : Bool
  endCall : Bool
deriving DecidableEq

/-- The re-engagement text of the `reminder_required` branch. -/
def reminderMsg : String :=
  "I'm still here if you need a moment to think or if you'd like to continue. Take your time."

/-- `GabbiTonaLawAgent.process_retell_request(request, call_id)`: returns the
optional reply (`None` becomes `none`) and the agent state after the event. -/
def process_retell_request (pyhash : String → Nat) (now : Nat)
    (req : RetellRequest) (callId : String) (ag : AgentState) :
    Option RetellResponse × AgentState :=
  let ag :=
    if (List.lookup callId ag.activeCalls).isSome then ag
    else { ag with activeCalls := dictSet ag.activeCalls callId ⟨now, "unknown", "in_progress"⟩ }
  if req.interactionType = some "update_only" then
    if req.transcript.isEmpty then (none, ag)
    else (none, { ag with
      conversationMemory := dictSet ag.conversationMemory callId (lastN 10 req.transcript) })
  else if req.interactionType = some "response_required" then
    if req.transcript.isEmpty then
      (some ⟨req.responseId, enhance_with_voice_presence pyhash get_initial_greeting [], true, false⟩,
       ag)
    else
      let lastMessage := (req.transcript.getLast?).getD ⟨none⟩
      let userInput := lastMessage.content.getD ""
      let stepped := get_next_response userInput (List.lookup callId ag.flowCalls)
      let ag2 := { ag with flowCalls := dictSet ag.flowCalls callId stepped.2 }
      let content := enhance_with_voice_presence pyhash stepped.1 req.transcript.dropLast
      (some ⟨req.responseId, content, true, false⟩, ag2)
  else if req.interactionType = some "reminder_required" then
    (some ⟨req.responseId, enhance_with_voice_presence pyhash reminderMsg req.transcript, true, false⟩,
     ag)
  else (none, ag)

/-- `runFlowFrom st inputs`: the flow-state slice after feeding `inputs` one
by one (in order) through `get_next_response`, starting from `st`.  Models a
sequence of successive `response_required` events for one call id. -/
def runFlowFrom (st : Option FlowCall) : List String → Option FlowCall
  | [] => st
  | input :: rest => runFlowFrom (some (get_next_response input st).2) rest

/-- The flow-state slice of a fresh call id after a sequence of inputs. -/
def runFlow (inputs : List String) : Option FlowCall := runFlowFrom none inputs

/-- The slot record held by an optional flow slice (`[]` for a never-seen
call id, matching the empty dict Python would create). -/
def flowInfo : Option FlowCall → List (String × String)
  | none => []
  | some st => st.info

/-- A stand-in for the Python builtin `hash` in one process: the constant-0
hash. -/
def hashZero : String → Nat := fun _ => 0

/-- A stand-in for the Python builtin `hash` in a second process whose hash
seed differs: the constant-1 hash. -/
def hashOne : String → Nat := fun _ => 1

/-- The classifier's keyword lists as the ordered rule table the spec
describes, personal-injury first. -/
def keywordRuleTable : List (List String × String) :=
  [(piKeywords, "personal_injury"), (nfKeywords, "no_fault"), (outsideKeywords, "outside_practice")]

/-- Modelled from the spec: lower-case the input, test the keyword lists as
substrings in table order, first matching list wins, no match gives the
default label. -/
def firstMatchLabel (table : List (List String × String)) (deflt : String)
    (input : String) : String :=
  match table.find? (fun r => anyKeyword (pyLower input) r.1) with
  | some r => r.2
  | none => deflt

/-- Modelled from the spec: the downstream consumer's fixed precedence over a
detected emotion set — trauma before frustration before confusion before
urgency, at most one rewrite, identity when no listed emotion applies. -/
def pickByPrecedence (emotions : List String) (text : String) : String :=
  if emotions.contains "trauma" then
    "I can hear this has been really difficult for you... " ++ text ++ " Take your time, there's no rush."
  else if emotions.contains "frustration" then
    "I understand your frustration... " ++ text ++ " We're here to help make this easier for you."
  else if emotions.contains "confusion" then
    "Let me help clarify this for you. " ++ text ++ " Does that make more sense?"
  else if emotions.contains "urgency" then
    "I understand this is urgent for you. " ++ text ++ " We'll move as quickly as we can."
  else text

/-- Modelled from the spec: the spec's stated composition order for the
enhancement pipeline — the emotional-intelligence prefix/suffix passes first
(empathy markers over the joined recent context, then emotional
intelligence), then the conversational-dynamics marker pass.  The spec's
contextual-awareness and personality-consistency passes have no counterpart
in `retell_bridge.py` and are the identity here. -/
def specOrderEnhance (pyhash : String → Nat) (text : String) (context : List Msg) : String :=
  let e := if context.isEmpty then text else add_empathy_markers pyhash text (recentJoin context)
  let e := add_emotional_intelligence e context
  add_conversational_markers e

/-- The composition order `enhance_with_voice_presence` actually applies:
conversational markers first, then empathy markers (only with a truthy
context), then emotional intelligence. -/
def codeOrderEnhance (pyhash : String → Nat) (text : String) (context : List Msg) : String :=
  add_emotional_intelligence
    (if context.isEmpty then add_conversational_markers text
     else add_empathy_markers pyhash (add_conversational_markers text) (recentJoin context))
    context

/-- Replacing a possibly-missing content key by the empty string it is read
as. -/
def normMsg (m : Msg) : Msg := ⟨some (m.content.getD "")⟩

/-- Every reply `get_next_response` can return: the state templates, then the
FAQ answers and the default reply. -/
def responsePool : List String :=
  ["Okay got it so to confirm, you are calling about a personal injury matter, right?",
   whatMatterMsg,
   "We appreciate you calling us at Tona Law. I understand you're calling about no-fault collection. What is the name of your practice?",
   outsidePracticeMsg,
   "Let me start by getting your first and last name. Do you mind spelling your full name slowly and clearly for me?",
   "What is the name of your practice?",
   "And to confirm, is the number you are calling us from the best number to reach you at?",
   "Can you briefly explain the situation?",
   "Thank you. What type of healthcare provider are you?",
   "Where and when did the accident happen?",
   "Can you please describe the injuries from the accident?",
   "Okay so what I'd like to do now is transfer you over to my colleague who will help you with the next steps. Again, I'm very sorry to hear about your situation but you made the right call. I'm transferring you now.",
   "I understand. Since there were no injuries, this might not qualify for a personal injury case. However, I'd be happy to discuss other options or see if there's anything else I can help you with.",
   "Do you currently accept No-Fault Insurance in your practice as a form of payment?",
   "What is your estimate of the dollar amount outstanding to date in wrongly denied no fault benefits?",
   "Thank you for that information. Let me transfer you to one of our attorneys who specializes in no-fault collection cases. They'll be able to help you with the next steps."]
  ++ (FAQS.map (fun qa => qa.2) ++ [defaultMsg])

/-! Helper lemmas about the dict model. -/

theorem lookup_append_single {β : Type} {d : List (String × β)} {k : String} {v : β}
    (p : String × β) (h : List.lookup k d = some v) :
    List.lookup k (d ++ [p]) = some v := by
  induction d with
  | nil => simp [List.lookup] at h
  | cons a rest ih =>
    rw [List.cons_append, List.lookup]
    rw [List.lookup] at h
    split at h
    · exact h
    · exact ih h

theorem dictSet_absent {β : Type} {d : List (String × β)} {k : String} (v : β)
    (h : List.lookup k d = none) : dictSet d k v = d ++ [(k, v)] := by
  unfold dictSet
  rw [h]
  rfl

theorem mem_of_lookup_some {β : Type} {d : List (String × β)} {k : String} {v : β}
    (h : List.lookup k d = some v) : (k, v) ∈ d := by
  induction d with
  | nil => simp [List.lookup] at h
  | cons a rest ih =>
    rw [List.lookup] at h
    split at h
    · next heq =>
      cases h
      simp only [beq_iff_eq] at heq
      subst heq
      simp
    · exact List.mem_cons_of_mem _ (ih h)

theorem lookup_dictSet_preserve {β : Type} {d : List (String × β)} {k kNew : String}
    {v : β} (vNew : β) (hk : List.lookup k d = some v)
    (habs : List.lookup kNew d = none) :
    List.lookup k (dictSet d kNew vNew) = some v := by
  rw [dictSet_absent vNew habs]
  exact lookup_append_single _ hk

theorem lookup_dictSet_self {β : Type} (d : List (String × β)) (k : String) (v : β) :
    List.lookup k (dictSet d k v) = some v := by
  unfold dictSet
  split
  · next hsome =>
    induction d with
    | nil => simp [List.lookup] at hsome
    | cons a rest ih =>
      rw [List.map_cons, List.lookup]
      by_cases hak : a.1 = k
      · simp [hak]
      · rw [if_neg hak]
        have : (k == a.1) = false := by
          simp only [beq_eq_false_iff_ne, ne_eq]
          exact fun h => hak h.symm
        rw [this]
        rw [List.lookup] at hsome
        have : (k == a.1) = false := by
          simp only [beq_eq_false_iff_ne, ne_eq]
          exact fun h => hak h.symm
        rw [this] at hsome
        exact ih hsome
  · next hnone =>
    have hn : List.lookup k d = none := by
      cases h : List.lookup k d with
      | none => rfl
      | some w => rw [h] at hnone; simp at hnone
    clear hnone
    induction d with
    | nil => simp [List.lookup]
    | cons a rest ih =>
      rw [List.cons_append, List.lookup]
      rw [List.lookup] at hn
      split at hn
      · exact absurd hn (by simp)
      · exact ih hn

/-! Helper lemmas about the dialogue flow. -/

theorem faq_answers_nonempty : ∀ qa ∈ FAQS, qa.2 ≠ "" := by decide

theorem faq_fallback_mem (s : String) :
    faq_fallback s ∈ FAQS.map (fun qa => qa.2) ++ [defaultMsg] := by
  unfold faq_fallback
  cases h : FAQS.find? (fun qa => strContains s qa.1) with
  | none => simp
  | some qa =>
    have hmem := List.mem_of_find?_eq_some h
    simp only [List.mem_append, List.mem_map]
    exact Or.inl ⟨qa, hmem, rfl⟩

theorem faq_fallback_ne (s : String) : faq_fallback s ≠ "" := by
  unfold faq_fallback
  cases h : FAQS.find? (fun qa => strContains s qa.1) with
  | none => decide
  | some qa => exact faq_answers_nonempty qa (List.mem_of_find?_eq_some h)

theorem step_state_ne_zero (input : String) (st : Option FlowCall) :
    (get_next_response input st).2.state ≠ 0 := by
  unfold get_next_response
  dsimp only
  repeat' split
  all_goals dsimp only
  all_goals omega

theorem step_preserves (input : String) (st : FlowCall)
    (hinv : st.state = 0 → st.info = []) {k : String} {v : String}
    (hk : List.lookup k st.info = some v) :
    List.lookup k (get_next_response input (some st)).2.info = some v := by
  by_cases h0 : st.state = 0
  · rw [hinv h0] at hk
    exact absurd hk (by simp)
  · unfold get_next_response
    dsimp only
    simp only [Option.getD_some]
    rw [if_neg h0]
    repeat' split
    all_goals dsimp only
    all_goals first
      | exact hk
      | (apply lookup_dictSet_preserve _ hk; assumption)

theorem runFlowFrom_append (xs : List String) (x : String) (st : Option FlowCall) :
    runFlowFrom st (xs ++ [x]) = some (get_next_response x (runFlowFrom st xs)).2 := by
  induction xs generalizing st with
  | nil => rfl
  | cons a rest ih => rw [List.cons_append]; exact ih _

theorem runFlow_state_ne_zero (inputs : List String) (s : FlowCall)
    (h : runFlow inputs = some s) : s.state ≠ 0 := by
  suffices H : ∀ xs st, (∀ t, st = some t → t.state ≠ 0) →
      ∀ s, runFlowFrom st xs = some s → s.state ≠ 0 by
    exact H inputs none (fun t ht => nomatch ht) s h
  intro xs
  induction xs with
  | nil => intro st hst s hs; exact hst s hs
  | cons a rest ih =>
    intro st hst s hs
    refine ih _ ?_ s hs
    intro t ht
    injection ht with ht2
    rw [← ht2]
    exact step_state_ne_zero a st

/-! The claims. -/

/-- C1 counterexample: at the concrete reply "Let me check. Ok" with one
recent context entry "why", composing the passes in the spec's stated order
(emotional intelligence first, conversational markers last) gives a different
string from what `enhance_with_voice_presence` produces, so the claimed
composition order does not hold of the code. -/
theorem claim_C1_counterexample :
    specOrderEnhance hashZero "Let me check. Ok" [⟨some "why"⟩] ≠
      enhance_with_voice_presence hashZero "Let me check. Ok" [⟨some "why"⟩] := by decide

/-- C1 (amended): for every hash function, reply text and context, the
enhanced output equals the composition of the passes in the order the code
applies them — conversational markers first, then (for a non-empty context)
empathy markers, then emotional intelligence; no contextual-awareness or
personality-consistency pass exists in this file. -/
theorem claim_C1_pipeline_order (pyhash : String → Nat) (text : String)
    (context : List Msg) :
    enhance_with_voice_presence pyhash text context = codeOrderEnhance pyhash text context := by
  unfold enhance_with_voice_presence codeOrderEnhance
  by_cases h : context.isEmpty <;> simp [h]

/-- C4: the empathy-phrase pick of `add_empathy_markers` is a function of the
Python `hash` builtin, not of the input text alone: two processes whose
(salted) string hashes differ on the context "there was an accident" return
different phrases for identical input text and context.  The claim — and the
spec's determinism requirement — say identical input must always give
identical output, so the code is at fault (the spec itself flags the
hash-based selector as a bug). -/
theorem claim_C4_hash_seed_dependence :
    add_empathy_markers hashZero "Okay" "there was an accident" ≠
      add_empathy_markers hashOne "Okay" "there was an accident" := by decide

/-- C8: the case-type classifier lower-cases its input and tests the three
fixed keyword lists as substrings in the fixed priority order personal
injury, no-fault, outside practice, returning the first matching label and
"unknown" when none matches: it equals the ordered-rule-table classifier.
Determinism is immediate, the classifier being a pure function of the
utterance. -/
theorem claim_C8_classifier_rule_table (s : String) :
    identify_case_type s = firstMatchLabel keywordRuleTable "unknown" s := by
  unfold identify_case_type firstMatchLabel keywordRuleTable
  cases h1 : anyKeyword (pyLower s) piKeywords <;>
    cases h2 : anyKeyword (pyLower s) nfKeywords <;>
      cases h3 : anyKeyword (pyLower s) outsideKeywords <;>
        simp [List.find?, h1, h2, h3]

/-- C9: emotion detection can return several simultaneously applicable
labels (witnessed on "the accident claim was denied"), and
`add_emotional_intelligence` performs at most one rewrite, chosen by the
fixed precedence trauma, frustration, confusion, urgency over the detected
set, leaving the text unchanged when no emotion is detected. -/
theorem claim_C9_emotion_precedence :
    detect_emotions "the accident claim was denied" = ["trauma", "frustration"] ∧
    (∀ text context, add_emotional_intelligence text context =
      if context.isEmpty then text
      else pickByPrecedence (detect_emotions (recentJoin context)) text) ∧
    (∀ text context, detect_emotions (recentJoin context) = [] →
      add_emotional_intelligence text context = text) := by
  refine ⟨by decide, ?_, ?_⟩
  · intro text context
    unfold add_emotional_intelligence pickByPrecedence
    rfl
  · intro text context hemo
    unfold add_emotional_intelligence
    by_cases h : context.isEmpty <;> simp [h, hemo]

/-- C5: a `response_required` event with an empty transcript always returns a
reply: the fixed initial greeting run through the enhancement pipeline (with
no context only the conversational-marker pass acts, independently of the
hash function), with the inbound response id echoed, `content_complete`
true and `end_call` false. -/
theorem claim_C5_empty_transcript_greeting (pyhash : String → Nat) (now : Nat)
    (rid : Option Nat) (callId : String) (ag : AgentState) :
    (process_retell_request pyhash now ⟨some "response_required", [], rid⟩ callId ag).1 =
      some ⟨rid, add_conversational_markers get_initial_greeting, true, false⟩ ∧
    add_conversational_markers get_initial_greeting =
      "Hi, this is Gabbi, the AI receptionist at TonaLaw... How can I help you?" := by
  constructor
  · unfold process_retell_request
    by_cases h : (List.lookup callId ag.activeCalls).isSome <;>
      simp [h, enhance_with_voice_presence, add_emotional_intelligence]
  · decide

/-- C2 counterexample: an event of unknown interaction type ("ping") for a
call id the agent has not seen does mutate per-call state — the active-call
record is created before the interaction type is inspected — so "leaves all
per-call state unchanged" fails. -/
theorem claim_C2_counterexample :
    (process_retell_request hashZero 5 ⟨some "ping", [], none⟩ "call1" ⟨[], [], []⟩).2 ≠
      (⟨[], [], []⟩ : AgentState) := by decide

/-- C2 (amended): an inbound event whose interaction type is none of
update_only, response_required, reminder_required produces no reply and
leaves the dialogue state, the slot record and the conversation memory
unchanged; the active-call record is unchanged when the call id is already
registered, but is freshly created (appended) when it is not. -/
theorem claim_C2_unknown_event (pyhash : String → Nat) (now : Nat)
    (req : RetellRequest) (callId : String) (ag : AgentState)
    (h1 : req.interactionType ≠ some "update_only")
    (h2 : req.interactionType ≠ some "response_required")
    (h3 : req.interactionType ≠ some "reminder_required") :
    (process_retell_request pyhash now req callId ag).1 = none ∧
    (process_retell_request pyhash now req callId ag).2.conversationMemory =
      ag.conversationMemory ∧
    (process_retell_request pyhash now req callId ag).2.flowCalls = ag.flowCalls ∧
    ((List.lookup callId ag.activeCalls).isSome →
      (process_retell_request pyhash now req callId ag).2 = ag) ∧
    (List.lookup callId ag.activeCalls = none →
      (process_retell_request pyhash now req callId ag).2.activeCalls =
        ag.activeCalls ++ [(callId, ⟨now, "unknown", "in_progress"⟩)]) := by
  unfold process_retell_request
  by_cases h : (List.lookup callId ag.activeCalls).isSome
  · obtain ⟨w, hw⟩ := Option.isSome_iff_exists.mp h
    simp [h, h1, h2, h3]
    exact ⟨w, mem_of_lookup_some hw⟩
  · have hn : List.lookup callId ag.activeCalls = none := by
      cases hc : List.lookup callId ag.activeCalls with
      | none => rfl
      | some w => rw [hc] at h; simp at h
    simp [h, h1, h2, h3, dictSet_absent _ hn]

/-- C2 amended witness: a "ping" event for an already-registered call id is a
pure no-op. -/
theorem claim_C2_unknown_event_witness :
    (process_retell_request hashZero 7 ⟨some "ping", [], none⟩ "c9"
        ⟨[("c9", ⟨1, "unknown", "in_progress"⟩)], [], []⟩).2 =
      (⟨[("c9", ⟨1, "unknown", "in_progress"⟩)], [], []⟩ : AgentState) :=
  (claim_C2_unknown_event hashZero 7 ⟨some "ping", [], none⟩ "c9"
      ⟨[("c9", ⟨1, "unknown", "in_progress"⟩)], [], []⟩
      (by decide) (by decide) (by decide)).2.2.2.1 (by decide)

theorem recentJoin_norm (context : List Msg) :
    recentJoin (context.map normMsg) = recentJoin context := by
  unfold recentJoin lastN
  rw [List.length_map, ← List.map_drop, List.map_map]
  rfl

theorem isEmpty_map_norm (context : List Msg) :
    (context.map normMsg).isEmpty = context.isEmpty := by
  cases context <;> rfl

/-- C3 counterexample: `add_empathy_markers` is not a no-op on empty input
text — with a context containing "accident" it prepends the selected empathy
phrase to the empty reply, returning a non-empty string. -/
theorem claim_C3_counterexample :
    add_empathy_markers hashZero "" "accident" ≠ "" := by decide

/-- C3 (amended): context entries without a "content" key are read as the
empty string (replacing every missing content by "" never changes a pass's
output), and the pipeline is a no-op on empty input text provided the recent
context triggers no empathy keyword and no detected emotion; a pass whose
keyword rule fires still prepends its phrase even to empty text. -/
theorem claim_C3_empty_and_malformed (pyhash : String → Nat) (text : String)
    (context : List Msg)
    (hemp1 : anyKeyword (pyLower (recentJoin context))
      ["accident", "injured", "hurt", "pain"] = false)
    (hemp2 : anyKeyword (pyLower (recentJoin context))
      ["severe", "serious", "hospital", "surgery"] = false)
    (hemo : detect_emotions (recentJoin context) = []) :
    enhance_with_voice_presence pyhash "" context = "" ∧
    enhance_with_voice_presence pyhash text (context.map normMsg) =
      enhance_with_voice_presence pyhash text context ∧
    add_emotional_intelligence text (context.map normMsg) =
      add_emotional_intelligence text context := by
  have hmark : add_conversational_markers "" = "" := by decide
  have hj := recentJoin_norm context
  have hie := isEmpty_map_norm context
  refine ⟨?_, ?_, ?_⟩
  · by_cases hc : context.isEmpty
    · simp [enhance_with_voice_presence, add_emotional_intelligence, hc, hmark]
    · simp [enhance_with_voice_presence, add_emotional_intelligence,
        add_empathy_markers, hc, hmark, hemp1, hemp2, hemo]
  · unfold enhance_with_voice_presence add_emotional_intelligence
    rw [hj, hie]
  · unfold add_emotional_intelligence
    rw [hj, hie]

/-- C3 amended witness: a context entry with no content key behaves as empty
content, and the pipeline leaves the empty reply empty on it. -/
theorem claim_C3_empty_and_malformed_witness :
    enhance_with_voice_presence hashZero "" [⟨none⟩] = "" :=
  (claim_C3_empty_and_malformed hashZero "x" [⟨none⟩]
    (by decide) (by decide) (by decide)).1

/-- C6: an `update_only` event never produces an outbound reply, and with a
non-empty transcript it overwrites the call's conversation-memory entry with
exactly the last 10 transcript entries (`transcript[-10:]`, older entries
evicted), touching neither the dialogue state nor the slot record. -/
theorem claim_C6_update_only (pyhash : String → Nat) (now : Nat) (rid : Option Nat)
    (callId : String) (ag : AgentState) (ts : List Msg) (hne : ts ≠ []) :
    (∀ ts2 : List Msg,
      (process_retell_request pyhash now ⟨some "update_only", ts2, rid⟩ callId ag).1 = none) ∧
    (process_retell_request pyhash now ⟨some "update_only", ts, rid⟩ callId ag).2.conversationMemory =
      dictSet ag.conversationMemory callId (ts.drop (ts.length - 10)) ∧
    List.lookup callId
        (process_retell_request pyhash now ⟨some "update_only", ts, rid⟩ callId
          ag).2.conversationMemory =
      some (ts.drop (ts.length - 10)) ∧
    (process_retell_request pyhash now ⟨some "update_only", ts, rid⟩ callId ag).2.flowCalls =
      ag.flowCalls := by
  have hee : ts.isEmpty = false := by
    cases ts with
    | nil => exact absurd rfl hne
    | cons a l => rfl
  refine ⟨?_, ?_, ?_, ?_⟩
  · intro ts2
    unfold process_retell_request
    by_cases h : (List.lookup callId ag.activeCalls).isSome <;>
      by_cases h2 : ts2.isEmpty <;> simp [h, h2]
  · unfold process_retell_request
    by_cases h : (List.lookup callId ag.activeCalls).isSome <;>
      simp [h, hee, lastN]
  · unfold process_retell_request
    by_cases h : (List.lookup callId ag.activeCalls).isSome <;>
      simp [h, hee, lastN, lookup_dictSet_self]
  · unfold process_retell_request
    by_cases h : (List.lookup callId ag.activeCalls).isSome <;> simp [h, hee]

/-- C6 witness: a one-entry `update_only` transcript for a fresh agent yields
no reply and a memory window holding that entry. -/
theorem claim_C6_update_only_witness :
    List.lookup "c1"
        (process_retell_request hashZero 3 ⟨some "update_only", [⟨some "hi"⟩], none⟩ "c1"
          ⟨[], [], []⟩).2.conversationMemory =
      some [⟨some "hi"⟩] :=
  (claim_C6_update_only hashZero 3 none "c1" ⟨[], [], []⟩ [⟨some "hi"⟩]
    (by decide)).2.2.1

/-- C7: across a sequence of successive `response_required` turns for one
call id, the slot record only grows — a key present with a value before one
more turn is still present with that value after it (terminal states change
nothing at all, so the statement needs no terminal-state cutoff). -/
theorem claim_C7_slot_record_monotone (inputs : List String) (input k v : String)
    (hk : List.lookup k (flowInfo (runFlow inputs)) = some v) :
    List.lookup k (flowInfo (runFlow (inputs ++ [input]))) = some v := by
  have happ : runFlow (inputs ++ [input]) =
      some (get_next_response input (runFlow inputs)).2 :=
    runFlowFrom_append inputs input none
  rw [happ]
  cases hcur : runFlow inputs with
  | none => rw [hcur] at hk; exact absurd hk (by simp [flowInfo, List.lookup])
  | some s =>
    rw [hcur] at hk
    have hinv : s.state = 0 → s.info = [] :=
      fun h => absurd h (runFlow_state_ne_zero inputs s hcur)
    exact step_preserves input s hinv hk

/-- C7 witness: the case_type slot filled on the first turn survives the
next turn. -/
theorem claim_C7_slot_record_monotone_witness :
    List.lookup "case_type"
        (flowInfo (runFlow (["I was in a car accident"] ++ ["it was last week"]))) =
      some "personal_injury" :=
  claim_C7_slot_record_monotone ["I was in a car accident"] "it was last week"
    "case_type" "personal_injury" (by decide)

set_option maxRecDepth 16384 in
/-- C10: for every user input and every per-call dialogue state (any state
code and any slot record, including case_type "unknown" or
"outside_practice"), `get_next_response` returns a non-empty reply, and that
reply is one of the state templates, an FAQ answer, or the fixed default —
no control path yields an empty or missing reply. -/
theorem claim_C10_reply_always_nonempty (input : String) (st : Option FlowCall) :
    (get_next_response input st).1 ≠ "" ∧ (get_next_response input st).1 ∈ responsePool := by
  unfold get_next_response
  dsimp only
  repeat' split
  all_goals dsimp only
  all_goals
    first
      | exact ⟨by decide, by decide⟩
      | exact ⟨faq_fallback_ne _,
          by unfold responsePool; exact List.mem_append_right _ (faq_fallback_mem _)⟩

end RetellBridge
